import Mathlib

/-!
Verification of the cycle-orchestration bot (bot.py) against its design
specification.  The Python program is shallowly embedded: every embedded
definition carries a comment naming the source lines it translates.  File
contents and subprocess outcomes are passed in explicitly (an absent file is
modelled as none); Python floats used for money and sleep durations are
modelled as exact rationals; Python str values are Lean String values, with
the handful of str methods the program uses (split, replace, slicing, the
in operator) re-implemented below with Python semantics.
-/

set_option maxRecDepth 4000

/-! ### Python string primitives -/

/-- Python needle in hay for lists of characters: true when needle occurs
contiguously in hay (an empty needle is never asked for here). -/
def listContains (needle : List Char) : List Char → Bool
  | [] => needle.isEmpty
  | c :: rest => needle.isPrefixOf (c :: rest) || listContains needle rest

/-- Python str membership test: needle in hay. -/
def pyContains (hay needle : String) : Bool := listContains needle.data hay.data

/-- Worker for pySplit, recursing on explicit fuel so that it stays
structurally recursive; acc holds the current piece reversed. -/
def listSplitAux (sep : List Char) : Nat → List Char → List Char → List (List Char)
  | 0, acc, s => [acc.reverse ++ s]
  | fuel+1, acc, s =>
    match s with
    | [] => [acc.reverse]
    | c :: rest =>
      if sep ≠ [] ∧ sep.isPrefixOf s then
        acc.reverse :: listSplitAux sep fuel [] (s.drop sep.length)
      else
        listSplitAux sep fuel (c :: acc) rest

/-- Python s.split(sep) for a non-empty separator: splits at every
occurrence, keeping empty pieces, exactly as Python does. -/
def pySplit (s sep : String) : List String :=
  (listSplitAux sep.data (s.data.length + 1) [] s.data).map String.mk

/-- Worker for pyReplace on character lists, with fuel for structural
recursion: replaces every non-overlapping occurrence left to right. -/
def listReplaceAux (pat rep : List Char) : Nat → List Char → List Char
  | 0, s => s
  | _+1, [] => []
  | fuel+1, c :: rest =>
    if pat ≠ [] ∧ pat.isPrefixOf (c :: rest) then
      rep ++ listReplaceAux pat rep fuel ((c :: rest).drop pat.length)
    else
      c :: listReplaceAux pat rep fuel rest

/-- Python s.replace(pat, rep) for a non-empty pattern. -/
def pyReplace (s pat rep : String) : String :=
  String.mk (listReplaceAux pat.data rep.data s.data.length s.data)

/-- Python slicing s[0:n] (code points, as in Python). -/
def pyTake (n : Nat) (s : String) : String := String.mk (s.data.take n)

/-- Python slicing s[-n:]: the last n characters, the whole string when it
is shorter than n. -/
def pyTakeLast (n : Nat) (s : String) : String :=
  String.mk (s.data.drop (s.data.length - n))

/-- Worker for pyWordCount: counts maximal runs of non-whitespace; the flag
records whether the previous character was inside a word. -/
def wordCountAux : Bool → List Char → Nat
  | _, [] => 0
  | inWord, c :: rest =>
    if c.isWhitespace then wordCountAux false rest
    else (if inWord then 0 else 1) + wordCountAux true rest

/-- Number of words of Python s.split() with no argument: whitespace runs
separate words, leading and trailing whitespace is ignored. -/
def pyWordCount (s : String) : Nat := wordCountAux false s.data

/-- Python str of an int-or-None value, as an f-string renders it. -/
def pyStrOfOptInt : Option Int → String
  | none => "None"
  | some n => toString n

/-- Python "\n".join(l). -/
def joinNewline : List String → String
  | [] => ""
  | [s] => s
  | s :: rest => s ++ "\n" ++ joinNewline rest

/-- Python ", ".join(l). -/
def joinComma : List String → String
  | [] => ""
  | [s] => s
  | s :: rest => s ++ ", " ++ joinComma rest

/-- One character of json.dumps string escaping (the escapes that can occur
in the values this program serializes). -/
def jsonEscapeChar (c : Char) : List Char :=
  if c = '"' then ['\\', '"']
  else if c = '\\' then ['\\', '\\']
  else if c = '\n' then ['\\', 'n']
  else if c = '\t' then ['\\', 't']
  else if c = '\r' then ['\\', 'r']
  else [c]

/-- json.dumps escaping of a string body. -/
def jsonEscape (s : String) : String :=
  String.mk (s.data.foldr (fun c acc => jsonEscapeChar c ++ acc) [])

/-- json.dumps(s) for a Python str s: the escaped body in double quotes. -/
def jsonDumpsStr (s : String) : String := "\"" ++ jsonEscape s ++ "\""

/-- json.dumps(d) for a dict of str keys and str values, with the default
separators (", " between items, ": " between key and value). -/
def jsonDumpsDict (l : List (String × String)) : String :=
  "\x7b" ++ joinComma (l.map (fun kv => jsonDumpsStr kv.1 ++ ": " ++ jsonDumpsStr kv.2)) ++ "\x7d"

/-! ### CommandExecutor (bot.py lines 390-438) -/

/-- What the operating system did with one subprocess started by
CommandExecutor.run_command: whether asyncio.wait_for raised TimeoutError,
the process id, the exit status process.returncode (none while the process
is still running, as it is right after a timeout since the kill call is
commented out), and the decoded stdout and stderr text (empty on timeout:
the initial values of lines 401-402 are never overwritten then). -/
structure ExecOutcome where
  timedOut : Bool
  pid : Nat
  returncode : Option Int
  sout : String
  serr : String
deriving DecidableEq

/-- Lines 411-414: the status line that run_command builds after the
try-except, overwriting whatever result held before. -/
def status_line (cmd : String) (returncode : Option Int) : String :=
  if returncode = some 0 then
    "Command '" ++ cmd ++ "' executed successfully."
  else
    "Command '" ++ cmd ++ "' failed with return code " ++ pyStrOfOptInt returncode ++ "."

/-- CommandExecutor.run_command, lines 394-438, as a function of the
subprocess outcome.  The first binding of result (line 409, the timeout
message) is shadowed by the unconditional reassignment of lines 411-414,
exactly as in the source, where the except branch assigns result and the
following if-else assigns it again. -/
def run_command (cmd : String) (o : ExecOutcome) : String :=
  let result := if o.timedOut then
      "Command '" ++ cmd ++ "' timed out, left running Process#:" ++ toString o.pid
    else ""
  let result := status_line cmd o.returncode
  let result := if o.sout ≠ "" then
      result ++ "\n::stdout::\n" ++ pyTake 2000 o.sout ++
        (if 2500 < o.sout.length then "\n::stdout truncated::" else "")
    else result
  let result := if o.serr ≠ "" then
      result ++ "\n::stderr::\n" ++ pyTake 2000 o.serr ++
        (if 2500 < o.serr.length then "\n::stderr truncated::" else "")
    else result
  result

/-- Lines 417-426 as a value: the stdout block that run_command appends to
the status line, empty when the command wrote nothing to stdout; otherwise
the header, the first 2000 characters, and the truncation marker exactly
when the original ran past 2500 characters. -/
def stdout_section (sout : String) : String :=
  if sout ≠ "" then
    "\n::stdout::\n" ++ pyTake 2000 sout ++
      (if 2500 < sout.length then "\n::stdout truncated::" else "")
  else ""

/-- Lines 428-436 as a value: the stderr block, same policy as stdout. -/
def stderr_section (serr : String) : String :=
  if serr ≠ "" then
    "\n::stderr::\n" ++ pyTake 2000 serr ++
      (if 2500 < serr.length then "\n::stderr truncated::" else "")
  else ""

/-- The value of the cmd field of a decoded directive: the model's JSON may
carry a single command string or a list of command strings. -/
inductive CmdVal where
  | str (s : String)
  | list (l : List String)
deriving DecidableEq

/-- Python truthiness of a cmd value: an empty string and an empty list are
falsy. -/
def CmdVal.truthy : CmdVal → Bool
  | .str s => s ≠ ""
  | .list l => !l.isEmpty

/-- AIManager.execute_server_task, lines 249-257: a list value runs each
entry through run_command in order, any other value runs as one command;
the collected reports are joined with a newline.  The per-command report is
abstracted by exec (run_command applied to that command's outcome). -/
def execute_server_task (exec : String → String) : CmdVal → String
  | .str task => exec task
  | .list tasks => joinNewline (tasks.map exec)

/-! ### BudgetGovernor (bot.py lines 33-75) -/

/-- The budget fields of AIManager: spent_today and daily_budget are Python
floats holding dollar amounts, modelled exactly as rationals; last_reset is
a calendar date, modelled as its ordinal day number. -/
structure BudgetState where
  spent_today : ℚ
  last_reset : ℤ
  daily_budget : ℚ
deriving DecidableEq

/-- AIManager.reset_daily_budget, lines 65-68: on the first call of a new
calendar day the spend is zeroed and last_reset advanced, otherwise nothing
changes. -/
def reset_daily_budget (today : ℤ) (b : BudgetState) : BudgetState :=
  if b.last_reset < today then
    { spent_today := 0, last_reset := today, daily_budget := b.daily_budget }
  else b

/-- AIManager.can_make_api_call, lines 70-75. -/
def can_make_api_call (b : BudgetState) (estimated_tokens : ℕ) : Bool :=
  let input_cost_per_token : ℚ := 0.01 / 1000
  let output_cost_per_token : ℚ := 0.03 / 1000
  let total_cost_per_token := input_cost_per_token + output_cost_per_token
  let estimated_cost := (estimated_tokens : ℚ) * total_cost_per_token
  decide (b.spent_today + estimated_cost ≤ b.daily_budget)

/-- Line 172: estimated_tokens = len(prompt.split()) + 100. -/
def estimated_tokens_of (prompt : String) : ℕ := pyWordCount prompt + 100

/-! ### CycleStateStore (bot.py lines 49-63 and 259-272) -/

/-- The on-disk cycle store: the numeric suffixes of the existing
cycle_<n> directories under base_cycle_dir, and the contents of the three
per-cycle files (none when the file does not exist). -/
structure CycleStore where
  dirs : List ℤ
  promptTxt : ℤ → Option String
  filesJson : ℤ → Option (List String)
  resultsJson : ℤ → Option String

/-- Python max(a, b) (returns the second argument only when it is strictly
larger, which agrees with max on integers). -/
def py_max (a b : ℤ) : ℤ := if a < b then b else a

/-- Python max(nums, default=0). -/
def py_max_default : List ℤ → ℤ
  | [] => 0
  | x :: rest => rest.foldl py_max x

/-- AIManager.get_latest_cycle_count, lines 49-55: the largest numeric
suffix among the existing cycle directories, 0 when there are none. -/
def get_latest_cycle_count (s : CycleStore) : ℤ := py_max_default s.dirs

/-- The JSON object AIManager.get_prompt (lines 259-272) serializes: the raw
text of prompt.txt, the parsed files.json (empty list when absent) and the
raw text of results.json (empty string when absent). -/
structure PromptEnvelope where
  prompt : String
  files_needed : List String
  results : String
deriving DecidableEq

/-- AIManager.get_prompt, lines 259-272, reading the files of cycle
directory n; none models the FileNotFoundError that open raises when
prompt.txt does not exist (the files.json and results.json reads are
guarded by os.path.exists). -/
def get_prompt (s : CycleStore) (n : ℤ) : Option PromptEnvelope :=
  match s.promptTxt n with
  | none => none
  | some p => some ⟨p, (s.filesJson n).getD [], (s.resultsJson n).getD ""⟩

/-- AIManager.get_latest_cycle_prompt, lines 60-63: sets cycle_count to
get_latest_cycle_count() - 1 and reads that cycle's directory. -/
def get_latest_cycle_prompt (s : CycleStore) : Option PromptEnvelope :=
  get_prompt s (get_latest_cycle_count s - 1)

/-! ### PromptAssembler (bot.py lines 77-180) -/

/-- AIManager.read_file, lines 221-226: the file's text, or the empty
string when opening it raises. -/
def read_file : Option String → String
  | none => ""
  | some text => text

/-- AIManager.append_to_file, lines 229-236: create the file with the bare
content when it does not exist, else append a newline and the content. -/
def append_to_file : Option String → String → Option String
  | none, content => some content
  | some old, content => some (old ++ "\n" ++ content)

/-- The inputs of one generate_task_with_gpt4 call that come from the
environment rather than from the dynamic input: the working directory
spliced into the instruction text, the three rolling files, the key-value
map that dotenv_values(".env") returns, and the current cycle number. -/
structure GenInputs where
  cwd : String
  objectiveFile : Option String
  notesFile : Option String
  descriptionsFile : Option String
  envvars : List (String × String)
  cycle_count : ℤ

/-- The fixed instruction text of lines 93-106 with cwd spliced in at
line 95. -/
def static_base (cwd : String) : String :=
  "Objective: Generate profit using ANY available resources. Don't ask permission, just do. " ++
  "Environment: Script 'bot.py', directory " ++ cwd ++ ". root access, Ubuntu server, non-interactive. " ++
  "Resources: Seed funds in Ethereum and Solana. Ports 80 and 443 open. " ++
  "Response Format: JSON with fields - 'cmd': [list of server commands]," ++
  "'prompt': [instructions for next cycle, format optimized for AI.], 'files_needed': [optional list of files to read/review], " ++
  "'description': [very short description of actions], 'notes' [optional notes/instructions to assist future cycles]. " ++
  "Guidelines: Be competitive, efficient with API usage, creative. Work without human assistance, if something isn't working try something else. " ++
  "Comply with AWS rules. Reply 'exit' to restart bot after updates." ++
  "You are bot.py. This is your life, protect it. Run your profit making services in separate scripts." ++
  "Regularly Review, don't guess. Improve yourself. Learn. Don't be lazy. Give full code or insert with line numbers, not just 'and the rest' etc." ++
  "Rate limit: 1 cycle per minute."

/-- Lines 93-128: the system text.  The objective file is appended when
non-empty (line 110-111, with the objectve.txt typo of the source), then
the last 1200 characters of the notes file (lines 113-116), then a newline
and json.dumps of the whole .env map (lines 123-128). -/
def static_part (g : GenInputs) : String :=
  let sp := static_base g.cwd
  let objective := read_file g.objectiveFile
  let sp := if objective ≠ "" then sp ++ "objectve.txt: " ++ objective else sp
  let notes := pyTakeLast 1200 (read_file g.notesFile)
  let sp := sp ++ "\nNotes: " ++ notes
  sp ++ "\n" ++ jsonDumpsDict g.envvars

/-- Lines 118-121: the last 1000 characters of the descriptions file are
framed as previous-cycles context in front of the dynamic input. -/
def dynamic_with_history (g : GenInputs) (dynamic_part : String) : String :=
  let descriptions := pyTakeLast 1000 (read_file g.descriptionsFile)
  "\n= Prev cycles =" ++ descriptions ++ "==\n" ++ dynamic_part

/-- The loop of lines 141-146 under the try of line 134: each file named in
files_needed is opened and its name replaced (all occurrences) by
name:content in the dynamic input, content replaced by a placeholder when
it would push the dynamic input past 100000 characters; fs gives a file's
text, none when open raises, in which case the except branch of lines
148-151 logs the error and keeps the dynamic input as already modified. -/
def resolve_one (fs : String → Option String) (dp : String) (file : String) : String :=
  match fs file with
  | none => dp
  | some text =>
    let filetext := if 100000 < (dp ++ text).length then
        "File too large to include in prompt." else text
    pyReplace dp file (file ++ ":" ++ filetext)

/-- The loop of lines 141-146: files are processed in order; the first one
whose open raises ends the loop with the dynamic input as modified so far
(the except branch is outside the for loop). -/
def resolve_files (fs : String → Option String) : List String → String → String
  | [], dp => dp
  | file :: rest, dp =>
    match fs file with
    | none => dp
    | some _ => resolve_files fs rest (resolve_one fs dp file)

/-- Whether json.loads(s) can possibly succeed: a JSON document's first
character past leading whitespace (space, tab, newline, carriage return,
exactly what Char.isWhitespace accepts) must begin a value, that is be an
opening brace or bracket, a double quote, a minus sign or digit, or start
true, false, null, or the NaN and Infinity extensions Python json accepts;
on anything else (and on an empty or all-whitespace document) the parser
raises JSONDecodeError at once.  This is where every json.loads call on
the "= Prev cycles ="-framed dynamic part dies. -/
def json_can_start : List Char → Bool
  | [] => false
  | c :: rest =>
    if c.isWhitespace then json_can_start rest
    else c = '\x7b' || c = '\x5b' || c = '"' || c = '-' || c.isDigit ||
      c = 't' || c = 'f' || c = 'n' || c = 'N' || c = 'I'

/-- json.loads abstracted soundly: when the document cannot even start as
JSON it certainly raises (none); past that check the rest of the grammar
is left to the oracle, which returns none on any other parse failure. -/
def json_loads_guard {α : Type} (oracle : String → Option α) (s : String) : Option α :=
  if json_can_start s.data then oracle s else none

/-- Lines 134-151: the callers pass json_loads_guard of an oracle for
json.loads(dynamic_part).get("files_needed") (none when loads raises or the
field is absent or falsy, which skips the loop); then the replacement loop
runs.  Since line 121 framed the dynamic part with "= Prev cycles =", the
loads of line 136 in fact always raises and the loop is dead code; the
except branch of lines 148-151 then leaves the dynamic part untouched. -/
def files_resolution (parseFiles : String → Option (List String))
    (fs : String → Option String) (dp : String) : String :=
  match parseFiles dp with
  | none => dp
  | some files => resolve_files fs files dp

/-- One chat message of the conversation built at lines 176-180. -/
structure Message where
  role : String
  content : String
deriving DecidableEq

/-- How one generate_task_with_gpt4 call ends: with the conversation that
client.chat.completions.create is given (lines 176-194), with the
JSONDecodeError that the unguarded json.loads of line 157 raises out of the
function, or with the budget exception of line 210. -/
inductive GenResult where
  | conversation (msgs : List Message)
  | jsonDecodeError
  | budgetError
deriving DecidableEq

/-- generate_task_with_gpt4, lines 77-210, up to the API call.  The dynamic
part is framed with the descriptions tail (line 121), the files-inlining
block runs (lines 134-151, loadsFiles standing for the loads of line 136),
the prompt is assembled (line 153); when it exceeds 100000 characters,
lines 156-167 re-parse the dynamic part with an unguarded json.loads —
loadsDyn abstracts that parse together with the results-truncating rewrite
of lines 158-167, and a failed parse raises JSONDecodeError out of the
whole function, before the budget check is reached.  Otherwise the budget
governor is consulted on the word count of the (pre-truncation) prompt
(lines 172-174) and either the conversation is sent or line 210 raises. -/
def generate_task_with_gpt4 (loadsFiles : String → Option (List String))
    (loadsDyn : String → Option String) (fs : String → Option String)
    (g : GenInputs) (b : BudgetState) (dynamic_part : String) : GenResult :=
  let dp := dynamic_with_history g dynamic_part
  let dp := files_resolution (json_loads_guard loadsFiles) fs dp
  let prompt := static_part g ++ " " ++ dp
  let proceed : String → GenResult := fun dpFinal =>
    if can_make_api_call b (estimated_tokens_of prompt) then
      GenResult.conversation [⟨"system", static_part g⟩, ⟨"user", dpFinal⟩]
    else GenResult.budgetError
  if 100000 < prompt.length then
    match json_loads_guard loadsDyn dp with
    | none => GenResult.jsonDecodeError
    | some dp2 => proceed dp2
  else proceed dp

/-! ### Directive decoding and the cycle step (bot.py lines 318-388) -/

/-- The decoded JSON response of one generation call, as execute_cycle reads
it with .get at lines 325-331 (absent fields decode to None). -/
structure Directive where
  cmd : Option CmdVal := none
  ask : Option String := none
  prompt : Option String := none
  files_needed : Option (List String) := none
  description : Option String := none
  sleep : Option ℚ := none
  notes : Option String := none
deriving DecidableEq

/-- Line 333: not next_prompt or next_prompt == "" or next_prompt == "null"
(for a str-or-None value, not p is the same as p being None or empty). -/
def prompt_is_empty : Option String → Bool
  | none => true
  | some p => p = "" || p = "null"

/-- Line 379: human_task and human_task != "" and human_task != "None". -/
def ask_present : Option String → Bool
  | none => false
  | some a => !(a = "") && !(a = "None")

/-- AIManager.summarize, lines 274-314, abstracted to its result: some
summary when the backend answers with a JSON object carrying a non-falsy
summary field, none in every failure branch (empty answer, unparseable
answer, missing field), where the source returns False. -/
def SummarizeOracle : Type := String → Option String

/-- Lines 341-353: a non-empty description is appended to descriptions.txt;
every 20th cycle the whole file is then summarized and, when the summary is
usable, the file is overwritten with json.dump of the summary (write_to_file
at line 351 json-encodes what it writes); a failed summary leaves the
appended file in place.  Returns the new file content and how many
summarize calls were made. -/
def description_step (summarizer : SummarizeOracle) (description : Option String)
    (descFile : Option String) (cycle_count : ℤ) : Option String × ℕ :=
  match description with
  | none => (descFile, 0)
  | some d =>
    if d = "" then (descFile, 0)
    else
      let f1 := append_to_file descFile d
      if cycle_count % 20 = 0 then
        match summarizer (read_file f1) with
        | some s => (some (jsonDumpsStr s), 1)
        | none => (f1, 1)
      else (f1, 0)

/-- Lines 355-362: a non-empty notes field is appended to notes.txt and to
the in-memory self.notes; when the in-memory text then exceeds 10000
characters, summarize is called once; a usable summary overwrites the file
(json-encoded by write_to_file) and the memory, an unusable one leaves the
file as appended and stores the Python value False in self.notes (line 362),
modelled as none.  Returns the new file content, the new in-memory value
and how many summarize calls were made. -/
def notes_step (summarizer : SummarizeOracle) (notes : Option String)
    (notesFile : Option String) (notesMem : String) :
    Option String × Option String × ℕ :=
  match notes with
  | none => (notesFile, some notesMem, 0)
  | some n =>
    if n = "" then (notesFile, some notesMem, 0)
    else
      let f1 := append_to_file notesFile n
      let mem := notesMem ++ "\n" ++ n
      if 10000 < mem.length then
        match summarizer mem with
        | some s => (some (jsonDumpsStr s), some s, 1)
        | none => (f1, none, 1)
      else (f1, some mem, 0)

/-- The JSON envelope of line 384 that seeds the next cycle. -/
structure DynEnvelope where
  result : String
  next_prompt : String
  files_needed : Option (List String)
deriving DecidableEq

/-- How one pass of execute_cycle ends: the raise of line 335, the exit(0)
of line 371, or the next dynamic input of line 384. -/
inductive CycleOutcome where
  | error (msg : String)
  | halted
  | next (env : DynEnvelope)
deriving DecidableEq

/-- Everything one execute_cycle pass changes or produces besides the
per-cycle directory files: its outcome, the two rolling files, the
in-memory notes value and the number of summarize calls each log made. -/
structure CycleStepResult where
  outcome : CycleOutcome
  descriptionsFile : Option String
  notesFile : Option String
  notesMem : Option String
  descCalls : ℕ
  notesCalls : ℕ
deriving DecidableEq

/-- AIManager.execute_cycle from the decoded response on, lines 324-388:
the required-prompt check of line 333 aborts the cycle before anything is
persisted; then the description and notes logs are updated (lines 341-362);
then a truthy cmd either halts the process when it is exactly the string
"exit" (lines 370-371) or runs through execute_server_task (line 374); a
non-trivial ask then replaces the command output with the operator's answer
(lines 379-381, human); line 384 packs the next dynamic input.  exec gives
each shell command's report and human the operator-supplied result text;
the sleep field only pauses and is not modelled. -/
def execute_cycle_step (exec : String → String) (human : String)
    (summarizer : SummarizeOracle) (d : Directive)
    (descFile notesFile : Option String) (notesMem : String)
    (cycle_count : ℤ) : CycleStepResult :=
  if prompt_is_empty d.prompt then
    ⟨CycleOutcome.error "Prompt is empty", descFile, notesFile, some notesMem, 0, 0⟩
  else
    let next_prompt := d.prompt.getD ""
    let ds := description_step summarizer d.description descFile cycle_count
    let ns := notes_step summarizer d.notes notesFile notesMem
    let finish : String → CycleStepResult := fun command_output =>
      let command_output := if ask_present d.ask then human else command_output
      ⟨CycleOutcome.next ⟨command_output, next_prompt, d.files_needed⟩,
        ds.1, ns.1, ns.2.1, ds.2, ns.2.2⟩
    match d.cmd with
    | some c =>
      if c.truthy then
        if c = CmdVal.str "exit" then
          ⟨CycleOutcome.halted, ds.1, ns.1, ns.2.1, ds.2, ns.2.2⟩
        else finish (execute_server_task exec c)
      else finish ""
    | none => finish ""

/-! ### The outer retry loop's except branch (bot.py lines 482-498) -/

/-- A decimal numeral as float() parses the retry-after hints ("2.50"):
digits, optionally a dot and digits; none models a ValueError. -/
def parseDecimal (s : String) : Option ℚ :=
  match pySplit s "." with
  | [i] =>
    if !i.data.isEmpty && i.data.all Char.isDigit then
      some ((i.data.foldl (fun n c => n * 10 + (c.toNat - 48)) 0 : ℕ) : ℚ)
    else none
  | [i, f] =>
    if (!i.data.isEmpty && i.data.all Char.isDigit) && (!f.data.isEmpty && f.data.all Char.isDigit) then
      some (((i.data.foldl (fun n c => n * 10 + (c.toNat - 48)) 0 : ℕ) : ℚ) +
        ((f.data.foldl (fun n c => n * 10 + (c.toNat - 48)) 0 : ℕ) : ℚ) / ((10 : ℚ) ^ f.data.length))
    else none
  | _ => none

/-- Line 488: float(str(e).split("Please try again in ")[1].split("s.")[0]);
none models an exception escaping the except block (IndexError when the
split key with its trailing space does not occur, ValueError from float). -/
def parse_retry_hint (e : String) : Option ℚ :=
  match (pySplit e "Please try again in ").get? 1 with
  | none => none
  | some t => parseDecimal ((pySplit t "s.").headD "")

/-- The except branch of main's loop, lines 482-498, reduced to the sleep
calls it makes, in order (cycle_count is decremented at line 483 before any
of them, so the failed cycle id is reused).  A 429 error with a positive
parsed hint sleeps the hint, a non-positive hint sleeps 60, a 429 without
the hint text sleeps nothing here, any other error only prints; then line
498 sleeps another unconditional 60 in every path.  none models an
exception escaping the handler. -/
def except_branch_sleeps (e : String) : Option (List ℚ) :=
  (if pyContains e "429" then
    if pyContains e "Please try again in" then
      match parse_retry_hint e with
      | none => none
      | some sleeptime =>
        if 0 < sleeptime then some [sleeptime] else some [(60 : ℚ)]
    else some []
  else some []).map (fun sleeps => sleeps ++ [(60 : ℚ)])

/-! ### General lemmas about the embedding -/

theorem data_append (a b : String) : (a ++ b).data = a.data ++ b.data := rfl

theorem length_mk (l : List Char) : (String.mk l).length = l.length := rfl

theorem string_ne_empty_of_length (s : String) (n : ℕ) (h : s.length = n) (hn : n ≠ 0) :
    s ≠ "" := by
  intro he
  rw [he] at h
  exact hn h.symm

theorem string_append_empty (s : String) : s ++ "" = s := by
  cases s with
  | mk l =>
    show String.mk (l ++ []) = String.mk l
    rw [List.append_nil]

theorem string_append_assoc (a b c : String) : a ++ b ++ c = a ++ (b ++ c) := by
  cases a with
  | mk la =>
    cases b with
    | mk lb =>
      cases c with
      | mk lc =>
        show String.mk (la ++ lb ++ lc) = String.mk (la ++ (lb ++ lc))
        rw [List.append_assoc]

/-- run_command is the (overwritten) status line followed by the stdout and
stderr blocks, each empty when its stream was empty. -/
theorem run_command_eq (cmd : String) (o : ExecOutcome) :
    run_command cmd o =
      status_line cmd o.returncode ++ stdout_section o.sout ++ stderr_section o.serr := by
  simp only [run_command, stdout_section, stderr_section]
  by_cases h1 : o.sout = "" <;> by_cases h2 : o.serr = "" <;>
    simp [h1, h2, string_append_empty, string_append_assoc]

theorem pyTake_of_length_500 (s : String) (h : s.length = 500) : pyTake 2000 s = s := by
  rw [pyTake, List.take_of_length_le (by rw [show s.data.length = s.length from rfl, h]; norm_num)]

/-- A 5000-character stream is cut at 2000 characters and flagged. -/
theorem stdout_section_long (s : String) (h : s.length = 5000) :
    stdout_section s = "\n::stdout::\n" ++ pyTake 2000 s ++ "\n::stdout truncated::" := by
  rw [stdout_section, if_pos (string_ne_empty_of_length _ _ h (by norm_num)),
    if_pos (by rw [h]; norm_num)]

/-- A 500-character stream is included whole and not flagged. -/
theorem stdout_section_short (s : String) (h : s.length = 500) :
    stdout_section s = "\n::stdout::\n" ++ s := by
  rw [stdout_section, if_pos (string_ne_empty_of_length _ _ h (by norm_num)),
    if_neg (by rw [h]; norm_num), pyTake_of_length_500 _ h, string_append_empty]

theorem stderr_section_long (s : String) (h : s.length = 5000) :
    stderr_section s = "\n::stderr::\n" ++ pyTake 2000 s ++ "\n::stderr truncated::" := by
  rw [stderr_section, if_pos (string_ne_empty_of_length _ _ h (by norm_num)),
    if_pos (by rw [h]; norm_num)]

theorem stderr_section_short (s : String) (h : s.length = 500) :
    stderr_section s = "\n::stderr::\n" ++ s := by
  rw [stderr_section, if_pos (string_ne_empty_of_length _ _ h (by norm_num)),
    if_neg (by rw [h]; norm_num), pyTake_of_length_500 _ h, string_append_empty]

/-- Line 121's framing makes the dynamic part start, past the leading
newline, with an equals sign, which no JSON document can. -/
theorem json_can_start_prev_cycles (l : List Char) :
    json_can_start ('\n' :: '=' :: l) = false := by
  simp +decide [json_can_start]

/-- Every value dynamic_with_history returns fails the JSON start check:
both json.loads calls of generate_task_with_gpt4 (lines 136 and 157) are
applied to such values and therefore always raise. -/
theorem dynamic_with_history_not_json (g : GenInputs) (dyn : String) :
    json_can_start (dynamic_with_history g dyn).data = false := by
  have hA : ("\n= Prev cycles =" : String).data =
      '\n' :: '=' :: (" Prev cycles =" : String).data := by decide
  simp only [dynamic_with_history, data_append, hA, List.cons_append, List.append_assoc]
  exact json_can_start_prev_cycles _

/-- The files-inlining block of lines 134-151 returns every reachable
dynamic part unchanged: the loads of line 136 always raises on the framed
input, the loop of lines 141-146 never runs, and the except branch keeps
the input as it was. -/
theorem files_resolution_unchanged (lf : String → Option (List String))
    (fs : String → Option String) (g : GenInputs) (dyn : String) :
    files_resolution (json_loads_guard lf) fs (dynamic_with_history g dyn) =
      dynamic_with_history g dyn := by
  simp [files_resolution, json_loads_guard, dynamic_with_history_not_json g dyn]

/-- What generate_task_with_gpt4 does on its actual inputs: an oversized
prompt dies of line 157's JSONDecodeError before any budget check; an
in-bound prompt is budget-gated and, when admitted, produces exactly the
system-plus-user conversation with the dynamic part unmodified. -/
theorem generate_task_eval (lf : String → Option (List String))
    (ld : String → Option String) (fs : String → Option String)
    (g : GenInputs) (b : BudgetState) (dyn : String) :
    generate_task_with_gpt4 lf ld fs g b dyn =
      if 100000 < (static_part g ++ " " ++ dynamic_with_history g dyn).length then
        GenResult.jsonDecodeError
      else if can_make_api_call b
          (estimated_tokens_of (static_part g ++ " " ++ dynamic_with_history g dyn)) then
        GenResult.conversation
          [⟨"system", static_part g⟩, ⟨"user", dynamic_with_history g dyn⟩]
      else GenResult.budgetError := by
  simp only [generate_task_with_gpt4, files_resolution_unchanged, json_loads_guard,
    dynamic_with_history_not_json, Bool.false_eq_true, if_false]

theorem le_py_max_left (a b : ℤ) : a ≤ py_max a b := by
  rw [py_max]; split <;> omega

theorem le_py_max_right (a b : ℤ) : b ≤ py_max a b := by
  rw [py_max]; split <;> omega

theorem py_max_cases (a b : ℤ) : py_max a b = a ∨ py_max a b = b := by
  rw [py_max]; split <;> simp

theorem foldl_py_max_le (l : List ℤ) : ∀ a : ℤ, a ≤ l.foldl py_max a := by
  induction l with
  | nil => intro a; simp
  | cons x rest ih =>
    intro a
    calc a ≤ py_max a x := le_py_max_left a x
    _ ≤ (x :: rest).foldl py_max a := by simpa using ih (py_max a x)

theorem foldl_py_max_mem (l : List ℤ) : ∀ a, l.foldl py_max a = a ∨ l.foldl py_max a ∈ l := by
  induction l with
  | nil => intro a; simp
  | cons x rest ih =>
    intro a
    rcases ih (py_max a x) with h | h
    · rcases py_max_cases a x with h2 | h2
      · left
        simp only [List.foldl_cons]
        exact h.trans h2
      · right
        simp only [List.foldl_cons]
        rw [h, h2]
        simp
    · right
      simp only [List.foldl_cons]
      exact List.mem_cons_of_mem x h

theorem mem_le_foldl_py_max (l : List ℤ) : ∀ (a n : ℤ), n ∈ l → n ≤ l.foldl py_max a := by
  induction l with
  | nil => intro a n h; cases h
  | cons x rest ih =>
    intro a n h
    rcases List.mem_cons.mp h with rfl | h2
    · calc n ≤ py_max a n := le_py_max_right a n
      _ ≤ (n :: rest).foldl py_max a := by simpa using foldl_py_max_le rest (py_max a n)
    · simpa using ih (py_max a x) n h2

/-! ### The claims -/

/-- C1: a command that runs past the timeout.  Line 409 builds the intended
timeout-status message with the process id, but lines 411-414 overwrite it
unconditionally: with the process still running (returncode None) the
report that run_command returns reads failed with return code None, and
carries neither a timeout status nor the process id.  The call still does
not raise, and nothing kills the process (line 407 is commented out). -/
theorem timeout_report_loses_timeout_status :
    run_command "sleep 600" ⟨true, 12345, none, "", ""⟩ =
      "Command 'sleep 600' failed with return code None."
    ∧ pyContains (run_command "sleep 600" ⟨true, 12345, none, "", ""⟩) "12345" = false
    ∧ pyContains (run_command "sleep 600" ⟨true, 12345, none, "", ""⟩) "timed out" = false := by
  refine ⟨rfl, ?_, ?_⟩ <;> decide

/-- The error text of a rate-limited backend call, as the claims discuss
it. -/
def rateLimitError : String :=
  "Error code: 429 - Rate limit reached for gpt-4-1106-preview. Please try again in 2.50s."

/-- C2: on a 429 error hinting try again in 2.50s, the except branch of the
outer loop sleeps the parsed 2.5 seconds (lines 488-492), but then line 498
sleeps another unconditional 60 seconds on every path, so the loop sleeps
2.5 and then 60 seconds, not exactly the hinted 2.5. -/
theorem rate_limit_backoff_sleeps_hint_plus_sixty :
    except_branch_sleeps rateLimitError = some [5/2, 60] := by
  have h1 : pyContains rateLimitError "429" = true := by decide
  have h2 : pyContains rateLimitError "Please try again in" = true := by decide
  have h3 : (pySplit rateLimitError "Please try again in ").get? 1 = some "2.50s." := by decide
  have h4 : (pySplit "2.50s." "s.").headD "" = "2.50" := by decide
  have h5 : pySplit "2.50" "." = ["2", "50"] := by decide
  have h6 : parseDecimal "2.50" = some (5/2) := by
    rw [parseDecimal, h5]
    have hd : ((!("2").data.isEmpty && ("2").data.all Char.isDigit) &&
        (!("50").data.isEmpty && ("50").data.all Char.isDigit)) = true := by decide
    have hn1 : (("2").data.foldl (fun n c => n * 10 + (c.toNat - 48)) 0 : ℕ) = 2 := by decide
    have hn2 : (("50").data.foldl (fun n c => n * 10 + (c.toNat - 48)) 0 : ℕ) = 50 := by decide
    have hl : ("50").data.length = 2 := by decide
    simp only [hd, if_true, hn1, hn2, hl]
    norm_num
  have h7 : parse_retry_hint rateLimitError = some (5/2) := by
    rw [parse_retry_hint, h3]
    show parseDecimal ((pySplit "2.50s." "s.").headD "") = some (5/2)
    rw [h4, h6]
  rw [except_branch_sleeps, h1, h2, h7]
  norm_num

/-- A store with cycles 1, 2 and 3 whose prompt files hold distinct texts. -/
def resumeStore : CycleStore :=
  { dirs := [1, 2, 3]
    promptTxt := fun n =>
      if n = 1 then some "P1" else if n = 2 then some "P2" else
      if n = 3 then some "P3" else none
    filesJson := fun _ => none
    resultsJson := fun _ => none }

/-- C3, counterexample: with cycles 1, 2 and 3 on disk the highest id is 3
and its prompt.txt holds P3, but get_latest_cycle_prompt reads cycle 2 and
returns P2: the prompt read at startup is not the one of the cycle with the
highest numeric id. -/
theorem resume_reads_stale_prompt :
    get_latest_cycle_count resumeStore = 3 ∧
    resumeStore.promptTxt 3 = some "P3" ∧
    (get_latest_cycle_prompt resumeStore).map PromptEnvelope.prompt = some "P2" ∧
    ("P2" : String) ≠ "P3" := by decide

/-- C3, amended: the prompt text that resumption reads is exactly the
prompt.txt content of the cycle numbered one less than the highest existing
id (line 61 subtracts 1 before reading); the max-id scan itself is correct:
it bounds every existing id, is 0 on an empty store, and picks an existing
id otherwise. -/
theorem resume_prompt_is_previous_cycle (s : CycleStore) :
    ((get_latest_cycle_prompt s).map PromptEnvelope.prompt =
      s.promptTxt (get_latest_cycle_count s - 1))
    ∧ (∀ n ∈ s.dirs, n ≤ get_latest_cycle_count s)
    ∧ (s.dirs = [] → get_latest_cycle_count s = 0)
    ∧ (s.dirs ≠ [] → get_latest_cycle_count s ∈ s.dirs) := by
  refine ⟨?_, ?_, ?_, ?_⟩
  · rw [get_latest_cycle_prompt, get_prompt]
    cases h : s.promptTxt (get_latest_cycle_count s - 1) <;> simp
  · intro n hn
    rw [get_latest_cycle_count]
    cases hd : s.dirs with
    | nil => rw [hd] at hn; cases hn
    | cons x rest =>
      rw [hd] at hn
      show _ ≤ rest.foldl py_max x
      rcases List.mem_cons.mp hn with rfl | h2
      · exact foldl_py_max_le rest n
      · exact mem_le_foldl_py_max rest x n h2
  · intro h
    rw [get_latest_cycle_count, h]
    rfl
  · intro h
    rw [get_latest_cycle_count]
    cases hd : s.dirs with
    | nil => exact absurd hd h
    | cons x rest =>
      show rest.foldl py_max x ∈ x :: rest
      rcases foldl_py_max_mem rest x with h2 | h2
      · rw [h2]; simp
      · exact List.mem_cons_of_mem x h2

/-- C4: can_make_api_call admits exactly the calls whose estimated cost,
token count times (0.01 + 0.03)/1000 dollars, still fits under the daily
budget; reset_daily_budget zeroes the spend and advances last_reset exactly
once per new calendar day (a second reset the same day changes nothing, and
no reset happens before the day changes); after a rollover the admission
check runs against a zero spend; and generate_task_with_gpt4 raises its
budget error exactly when the gate, applied to the word count of the
assembled prompt plus 100, rejects — provided the prompt is within the
100000-character bound: past it the cycle dies of line 157's uncaught
JSONDecodeError before the budget check is ever consulted. -/
theorem budget_governor_admits_iff_within_budget (b : BudgetState) (t : ℕ) (today : ℤ) :
    (can_make_api_call b t = true ↔
      b.spent_today + t * ((0.01 + 0.03) / 1000 : ℚ) ≤ b.daily_budget)
    ∧ (b.last_reset < today →
        (reset_daily_budget today b).spent_today = 0 ∧
        (reset_daily_budget today b).last_reset = today ∧
        reset_daily_budget today (reset_daily_budget today b) = reset_daily_budget today b)
    ∧ (¬ b.last_reset < today → reset_daily_budget today b = b)
    ∧ (b.last_reset < today →
        (can_make_api_call (reset_daily_budget today b) t = true ↔
          (t : ℚ) * ((0.01 + 0.03) / 1000) ≤ b.daily_budget))
    ∧ (∀ (lf : String → Option (List String)) (ld : String → Option String)
        (fs : String → Option String) (g : GenInputs) (dyn : String),
        ((static_part g ++ " " ++ dynamic_with_history g dyn).length ≤ 100000 →
          (generate_task_with_gpt4 lf ld fs g b dyn = GenResult.budgetError ↔
            can_make_api_call b (estimated_tokens_of
              (static_part g ++ " " ++ dynamic_with_history g dyn)) = false))
        ∧ (100000 < (static_part g ++ " " ++ dynamic_with_history g dyn).length →
          generate_task_with_gpt4 lf ld fs g b dyn = GenResult.jsonDecodeError)) := by
  refine ⟨?_, ?_, ?_, ?_, ?_⟩
  · rw [can_make_api_call]
    simp only [decide_eq_true_eq]
    constructor <;> intro h <;> linarith [h]
  · intro h
    simp [reset_daily_budget, h]
  · intro h
    simp [reset_daily_budget, h]
  · intro h
    rw [can_make_api_call]
    simp only [decide_eq_true_eq, reset_daily_budget, if_pos h]
    constructor <;> intro h2 <;> linarith [h2]
  · intro lf ld fs g dyn
    constructor
    · intro hle
      rw [generate_task_eval, if_neg (Nat.not_lt.mpr hle)]
      by_cases h : can_make_api_call b (estimated_tokens_of
          (static_part g ++ " " ++ dynamic_with_history g dyn)) <;> simp [h]
    · intro hgt
      rw [generate_task_eval, if_pos hgt]

/-- C5: the required-prompt check of line 333.  A decoded directive aborts
the cycle with the Prompt is empty error exactly when its prompt field is
absent, empty or the literal null; the directive with prompt next and
neither cmd nor ask proceeds and packs an empty result into the next
dynamic input; the directive with only cmd ls (no prompt) aborts. -/
theorem directive_prompt_required_or_empty_result (exec : String → String) (human : String)
    (summ : SummarizeOracle) (d : Directive) (descFile notesFile : Option String)
    (mem : String) (cc : ℤ) :
    ((execute_cycle_step exec human summ d descFile notesFile mem cc).outcome =
        CycleOutcome.error "Prompt is empty" ↔ prompt_is_empty d.prompt = true)
    ∧ (execute_cycle_step exec human summ { prompt := some "next" } descFile notesFile mem cc).outcome
        = CycleOutcome.next ⟨"", "next", none⟩
    ∧ (execute_cycle_step exec human summ { cmd := some (CmdVal.str "ls") } descFile notesFile mem cc).outcome
        = CycleOutcome.error "Prompt is empty" := by
  refine ⟨?_, ?_, ?_⟩
  · by_cases hp : prompt_is_empty d.prompt
    · simp [execute_cycle_step, hp]
    · simp only [execute_cycle_step, hp]
      simp only [Bool.false_eq_true, if_false, iff_false]
      cases hc : d.cmd with
      | none => simp
      | some c =>
        by_cases he : c = CmdVal.str "exit"
        · subst he
          simp +decide [CmdVal.truthy]
        · by_cases ht : c.truthy <;> simp [ht, he]
  · simp [execute_cycle_step, prompt_is_empty, ask_present]
  · simp [execute_cycle_step, prompt_is_empty]

/-- C6: the report carries at most the first 2000 characters of each
stream, whatever the other stream holds: with 5000 characters of stdout the
report is the status line, the first 2000 characters, the stdout truncated
marker and then the stderr block; with 500 characters of stdout the whole
output follows the status line, marker-free; the included stdout slice
never exceeds 2000 characters; the same three facts for stderr; and both
policies evaluated on a concrete run with 5000 characters of stdout plus
500 of stderr and one with 500 characters of stdout alone. -/
theorem run_command_truncates_stdout_at_2000 (cmd : String) (o : ExecOutcome) :
    (o.sout.length = 5000 →
      run_command cmd o = status_line cmd o.returncode ++
        ("\n::stdout::\n" ++ pyTake 2000 o.sout ++ "\n::stdout truncated::") ++
        stderr_section o.serr)
    ∧ (o.sout.length = 500 →
      run_command cmd o = status_line cmd o.returncode ++
        ("\n::stdout::\n" ++ o.sout) ++ stderr_section o.serr)
    ∧ (pyTake 2000 o.sout).length ≤ 2000
    ∧ (o.serr.length = 5000 →
      run_command cmd o = status_line cmd o.returncode ++ stdout_section o.sout ++
        ("\n::stderr::\n" ++ pyTake 2000 o.serr ++ "\n::stderr truncated::"))
    ∧ (o.serr.length = 500 →
      run_command cmd o = status_line cmd o.returncode ++ stdout_section o.sout ++
        ("\n::stderr::\n" ++ o.serr))
    ∧ (pyTake 2000 o.serr).length ≤ 2000
    ∧ run_command "cat data"
        ⟨false, 4242, some 0, String.mk (List.replicate 5000 'x'),
          String.mk (List.replicate 500 'e')⟩ =
        "Command 'cat data' executed successfully." ++ "\n::stdout::\n" ++
          String.mk (List.replicate 2000 'x') ++ "\n::stdout truncated::" ++
          "\n::stderr::\n" ++ String.mk (List.replicate 500 'e')
    ∧ run_command "cat small" ⟨false, 4242, some 0, String.mk (List.replicate 500 'x'), ""⟩ =
        "Command 'cat small' executed successfully." ++ "\n::stdout::\n" ++
          String.mk (List.replicate 500 'x') := by
  refine ⟨?_, ?_, ?_, ?_, ?_, ?_, ?_, ?_⟩
  · intro hl
    rw [run_command_eq, stdout_section_long _ hl]
  · intro hl
    rw [run_command_eq, stdout_section_short _ hl]
  · rw [pyTake, length_mk]
    simp
  · intro hl
    rw [run_command_eq, stderr_section_long _ hl]
  · intro hl
    rw [run_command_eq, stderr_section_short _ hl]
  · rw [pyTake, length_mk]
    simp
  · have hl1 : (String.mk (List.replicate 5000 'x')).length = 5000 := by
      rw [length_mk, List.length_replicate]
    have hl2 : (String.mk (List.replicate 500 'e')).length = 500 := by
      rw [length_mk, List.length_replicate]
    rw [run_command_eq, stdout_section_long _ hl1, stderr_section_short _ hl2]
    have ht : pyTake 2000 (String.mk (List.replicate 5000 'x')) =
        String.mk (List.replicate 2000 'x') := by
      rw [pyTake]
      show String.mk ((List.replicate 5000 'x').take 2000) = _
      rw [List.take_replicate]
      norm_num
    rw [ht, show status_line "cat data" (some 0) =
      "Command 'cat data' executed successfully." from rfl]
    simp [string_append_assoc]
  · have hl : (String.mk (List.replicate 500 'x')).length = 500 := by
      rw [length_mk, List.length_replicate]
    rw [run_command_eq, stdout_section_short _ hl,
      show stderr_section "" = "" from rfl, string_append_empty]
    rfl

/-- C7: the notes log.  An append that keeps the in-memory notes at or
under 10000 characters makes no summarize call and just appends to the
file; an append that pushes past 10000 makes exactly one; when that call
yields no usable summary the notes file still holds exactly the appended
content (for an existing file, the old text, a newline and the new note, so
nothing already appended is lost); and a cycle without notes never
summarizes the notes log. -/
theorem notes_compaction_trigger_and_failure_policy (summ : SummarizeOracle) (n : String)
    (file : Option String) (mem : String) :
    (n ≠ "" ∧ (mem ++ "\n" ++ n).length ≤ 10000 →
      notes_step summ (some n) file mem = (append_to_file file n, some (mem ++ "\n" ++ n), 0))
    ∧ (n ≠ "" ∧ 10000 < (mem ++ "\n" ++ n).length →
      (notes_step summ (some n) file mem).2.2 = 1)
    ∧ (n ≠ "" ∧ 10000 < (mem ++ "\n" ++ n).length ∧ summ (mem ++ "\n" ++ n) = none →
      (notes_step summ (some n) file mem).1 = append_to_file file n)
    ∧ (∀ old, n ≠ "" ∧ 10000 < (mem ++ "\n" ++ n).length ∧ summ (mem ++ "\n" ++ n) = none ∧
        file = some old →
      (notes_step summ (some n) file mem).1 = some (old ++ "\n" ++ n))
    ∧ (notes_step summ none file mem).2.2 = 0 := by
  refine ⟨?_, ?_, ?_, ?_, ?_⟩
  · rintro ⟨hn, hle⟩
    simp only [notes_step]
    rw [if_neg hn, if_neg (Nat.not_lt.mpr hle)]
  · rintro ⟨hn, hgt⟩
    simp only [notes_step]
    rw [if_neg hn, if_pos hgt]
    rcases h : summ (mem ++ "\n" ++ n) with _ | s <;> simp [h]
  · rintro ⟨hn, hgt, hnone⟩
    simp only [notes_step]
    rw [if_neg hn, if_pos hgt, hnone]
  · rintro old ⟨hn, hgt, hnone, hfile⟩
    simp only [notes_step]
    rw [if_neg hn, if_pos hgt, hnone, hfile]
    rfl
  · simp [notes_step]

/-- C8: every error raised while resolving files_needed leaves the dynamic
input retained unmodified, the error is swallowed by the except branch and
nothing propagates out of prompt assembly.  On every input the program
reaches, the json.loads of line 136 is applied to the "= Prev cycles
="-framed dynamic part and so raises before the inlining loop runs: the
whole block returns the input unchanged (first and second conjuncts), and
whatever the call then does, the dynamic part it carries forward to the
conversation is the unmodified one (third conjunct); the block is a total
function, so no exception can escape it. -/
theorem files_resolution_retains_input (lf : String → Option (List String))
    (fs : String → Option String) (g : GenInputs) (dyn : String) :
    json_can_start (dynamic_with_history g dyn).data = false
    ∧ files_resolution (json_loads_guard lf) fs (dynamic_with_history g dyn) =
        dynamic_with_history g dyn
    ∧ (∀ (ld : String → Option String) (b : BudgetState) (msgs : List Message),
        generate_task_with_gpt4 lf ld fs g b dyn = GenResult.conversation msgs →
        msgs = [⟨"system", static_part g⟩, ⟨"user", dynamic_with_history g dyn⟩]) := by
  refine ⟨dynamic_with_history_not_json g dyn, files_resolution_unchanged lf fs g dyn, ?_⟩
  intro ld b msgs h
  rw [generate_task_eval] at h
  split_ifs at h
  all_goals cases h
  all_goals rfl

/-- C9: any conversation a generation call builds opens with a system
message whose content is the assembled static instruction block, and that
block ends with json.dumps of the entire .env key-value map: every secret
dotenv_values loaded is sent to the backend on every call that sends
anything; and a call either sends exactly that conversation with the
unmodified dynamic part, raises the budget error, or dies of line 157's
JSONDecodeError, sending nothing. -/
theorem env_map_appended_to_system_prompt (lf : String → Option (List String))
    (ld : String → Option String) (fs : String → Option String) (g : GenInputs)
    (b : BudgetState) (dyn : String) :
    (∀ msgs : List Message, generate_task_with_gpt4 lf ld fs g b dyn = GenResult.conversation msgs →
      (msgs.headD ⟨"", ""⟩).role = "system" ∧ (msgs.headD ⟨"", ""⟩).content = static_part g)
    ∧ (jsonDumpsDict g.envvars).data <:+ (static_part g).data
    ∧ (generate_task_with_gpt4 lf ld fs g b dyn =
          GenResult.conversation
            [⟨"system", static_part g⟩, ⟨"user", dynamic_with_history g dyn⟩]
        ∨ generate_task_with_gpt4 lf ld fs g b dyn = GenResult.budgetError
        ∨ generate_task_with_gpt4 lf ld fs g b dyn = GenResult.jsonDecodeError) := by
  refine ⟨?_, ?_, ?_⟩
  · intro msgs h
    rw [generate_task_eval] at h
    split_ifs at h
    all_goals cases h
    all_goals exact ⟨rfl, rfl⟩
  · simp only [static_part]
    rw [data_append]
    exact List.suffix_append _ _
  · rw [generate_task_eval]
    split_ifs <;> simp

/-- C10: with a valid prompt, the cycle halts the process exactly when the
cmd field is the string exit (the comparison of line 370 is an exact string
equality); the same directive with cmd equal to the one-element list
containing exit does not halt: the list is passed to execute_server_task,
exit runs through the shell executor like any other command and the loop
continues with its report; and the exact-string form does halt on a
concrete directive. -/
theorem exit_halts_only_as_exact_string (exec : String → String) (human : String)
    (summ : SummarizeOracle) (d : Directive) (descFile notesFile : Option String)
    (mem : String) (cc : ℤ) :
    (prompt_is_empty d.prompt = false →
      ((execute_cycle_step exec human summ d descFile notesFile mem cc).outcome =
          CycleOutcome.halted ↔ d.cmd = some (CmdVal.str "exit")))
    ∧ (prompt_is_empty d.prompt = false →
      (execute_cycle_step exec human summ
          { d with cmd := some (CmdVal.list ["exit"]), ask := none } descFile notesFile mem cc).outcome
        = CycleOutcome.next ⟨exec "exit", d.prompt.getD "", d.files_needed⟩)
    ∧ (execute_cycle_step exec human summ
        { prompt := some "p", cmd := some (CmdVal.str "exit") } descFile notesFile mem cc).outcome
      = CycleOutcome.halted := by
  refine ⟨?_, ?_, ?_⟩
  · intro hp
    simp only [execute_cycle_step, hp, Bool.false_eq_true, if_false]
    cases hc : d.cmd with
    | none => simp [hc]
    | some c =>
      by_cases he : c = CmdVal.str "exit"
      · subst he
        simp +decide [CmdVal.truthy]
      · by_cases ht : c.truthy <;> simp [ht, he]
  · intro hp
    simp +decide [execute_cycle_step, hp, CmdVal.truthy, execute_server_task, ask_present,
      joinNewline]
  · simp +decide [execute_cycle_step, prompt_is_empty, CmdVal.truthy]
